import Mathlib

/-!
Verification development for the global-clock renderer.

The repository renders a day/night globe with an analog clock overlay.
We embed the time-to-parameter mapping (src/globe.rs, src/clock_face.rs),
the viewport projection (src/viewport.rs), the clock-face rasterization
step (src/clock_face.rs), and the frame/surface lifecycle of the
compositor (src/main.rs), and prove the specified properties about them.

Floating-point (f32) arithmetic of the source is embedded as exact real
arithmetic (over ℝ, with the source's TAU constant embedded as 2·π), and
as exact rational arithmetic (over ℚ) where no transcendental constant
occurs.  External drawing primitives (the tiny_skia library) are
abstracted as opaque deterministic operations.
-/

namespace GlobalClock

/-! ### Frame/surface lifecycle: src/main.rs, App -/

/-- Presentation mode of a swap chain; the source always uses
wgpu::PresentMode::Fifo. -/
inductive PresentMode
  | fifo
deriving DecidableEq

/-- The swap-chain configuration built by App::swap_chain: the current
window inner size plus the FIFO presentation mode (the pixel format is a
fixed field of the graphics context and is omitted). -/
structure SwapChainDescriptor where
  width : ℕ
  height : ℕ
  present_mode : PresentMode
deriving DecidableEq

/-- The App state relevant to the redraw path: the window inner size and
the lazily created swap chain (None = unconfigured). -/
structure AppState where
  window_width : ℕ
  window_height : ℕ
  swap_chain : Option SwapChainDescriptor
deriving DecidableEq

namespace App

/-- App::swap_chain (src/main.rs lines 129-144): return the swap chain,
creating it from the current window size and FIFO mode if it is None. -/
def ensure_swap_chain (st : AppState) : AppState :=
  match st.swap_chain with
  | some _ => st
  | none =>
    { st with
      swap_chain := some ⟨st.window_width, st.window_height, PresentMode.fifo⟩ }

/-- One encoded draw command; App::redraw encodes Background, Globe and
ClockFace draws, in that order, into one command buffer. -/
inductive DrawCmd
  | background
  | globe
  | clock_face
deriving DecidableEq

/-- The fixed command sequence encoded on the success path of App::redraw
(src/main.rs lines 113-119). -/
def draw_commands : List DrawCmd := [DrawCmd.background, DrawCmd.globe, DrawCmd.clock_face]

/-- Result of one SwapChain::get_current_frame call, as matched by
App::redraw (src/main.rs lines 99-110). -/
inductive AcqResult
  | ok
  | lost
  | timeout
  | outdated
  | other
deriving DecidableEq

/-- Outcome of App::redraw: Ok(()) together with the list of submitted
command buffers (each a list of draw commands), or a propagated error. -/
inductive RedrawResult
  | success (submitted : List (List DrawCmd))
  | failure
deriving DecidableEq

/-- App::redraw (src/main.rs lines 97-122), driven by the list of results
successive frame-acquisition calls return.  Each loop iteration first
ensures the swap chain exists (self.swap_chain()), then matches the
acquisition result: Ok breaks out and encodes + submits the three draws;
Lost drops the swap chain and loops; Timeout/Outdated return Ok(()) with
nothing submitted; any other error is returned as an error.  The third
component counts acquisition attempts consumed; None means the loop would
demand yet another acquisition result. -/
def redraw : AppState → List AcqResult → Option (RedrawResult × AppState × ℕ)
  | _, [] => none
  | st, r :: rs =>
    let st1 := ensure_swap_chain st
    match r with
    | AcqResult.ok => some (RedrawResult.success [draw_commands], st1, 1)
    | AcqResult.lost =>
      (redraw { st1 with swap_chain := none } rs).map fun p => (p.1, p.2.1, p.2.2 + 1)
    | AcqResult.timeout => some (RedrawResult.success [], st1, 1)
    | AcqResult.outdated => some (RedrawResult.success [], st1, 1)
    | AcqResult.other => some (RedrawResult.failure, st1, 1)

end App

/-! ### Viewport projection: src/viewport.rs -/

namespace Viewport

/-- Basis vector Vec4::X of glam. -/
def vec4X : Fin 4 → ℚ := ![1, 0, 0, 0]

/-- Basis vector Vec4::Y of glam. -/
def vec4Y : Fin 4 → ℚ := ![0, 1, 0, 0]

/-- Basis vector Vec4::Z of glam. -/
def vec4Z : Fin 4 → ℚ := ![0, 0, 1, 0]

/-- Basis vector Vec4::W of glam. -/
def vec4W : Fin 4 → ℚ := ![0, 0, 0, 1]

/-- Mat4::from_cols of glam: build a matrix from its four columns. -/
def from_cols (c0 c1 c2 c3 : Fin 4 → ℚ) : Matrix (Fin 4) (Fin 4) ℚ :=
  Matrix.of fun i j => ![c0, c1, c2, c3] j i

/-- The Viewport uniform block (src/viewport.rs lines 77-81): one 4×4
projection matrix. -/
structure Uniforms where
  proj : Matrix (Fin 4) (Fin 4) ℚ

/-- Uniforms::default (src/viewport.rs lines 84-88): the identity. -/
def Uniforms.default : Uniforms := ⟨1⟩

/-- Uniforms::new (src/viewport.rs lines 90-101): scale X by
min(w,h)/w and Y by min(w,h)/h, leaving Z and W axes untouched. -/
def Uniforms.new (w h : ℚ) : Uniforms :=
  ⟨from_cols (fun i => min w h / w * vec4X i) (fun i => min w h / h * vec4Y i)
    vec4Z vec4W⟩

end Viewport

/-! ### Globe: src/globe.rs -/

/-- The TAU constant (std::f32::consts::TAU), embedded exactly as 2·π. -/
noncomputable def TAU : ℝ := 2 * Real.pi

namespace Globe

/-- SECONDS_PER_DAY constant of Globe::set_date. -/
def SECONDS_PER_DAY : ℝ := 86400

/-- ANGLE_OFFSET constant of Globe::set_date, compensating for angle 0
being at 6:00 AM UTC (src/globe.rs line 308). -/
noncomputable def ANGLE_OFFSET : ℝ := TAU / 4

/-- DAYS_PER_YEAR constant of Globe::set_date; leap years are ignored. -/
def DAYS_PER_YEAR : ℝ := 365

/-- EQUINOX_OFFSET constant of Globe::set_date (src/globe.rs line 316). -/
def EQUINOX_OFFSET : ℝ := -78

/-- MAX_AXIAL_TILT constant of Globe::set_date (src/globe.rs line 317). -/
noncomputable def MAX_AXIAL_TILT : ℝ := 23.4 / 360 * TAU

/-- The Globe uniform block (src/globe.rs lines 57-67); the padding
bytes are omitted. -/
structure Uniforms where
  local_transform : Matrix (Fin 4) (Fin 4) ℝ
  rotation : ℝ
  axial_tilt : ℝ
  min_latitude : ℝ
  max_latitude : ℝ
  deflection_point : ℝ × ℝ

/-- Mat4::from_scale of glam with an equal scale on all three axes
(Vec3::splat): the diagonal matrix diag(s, s, s, 1). -/
noncomputable def from_scale (s : ℝ) : Matrix (Fin 4) (Fin 4) ℝ :=
  Matrix.diagonal ![s, s, s, 1]

/-- Uniforms::default (src/globe.rs lines 69-81). -/
noncomputable def Uniforms.default : Uniforms :=
  { local_transform := from_scale 0.8
    rotation := 0
    axial_tilt := 0
    min_latitude := -TAU / 4
    max_latitude := TAU / 4
    deflection_point := (0.55, 0.65) }

/-- Globe::set_date (src/globe.rs lines 305-321).  The chrono date is
represented by the two projections the function reads:
date.ordinal0() (the 0-based day of the year) and
date.num_seconds_from_midnight() (UTC seconds since midnight). -/
noncomputable def set_date (u : Uniforms) (ordinal0 secs : ℕ) : Uniforms :=
  { u with
    rotation := (secs : ℝ) / SECONDS_PER_DAY * TAU + ANGLE_OFFSET
    axial_tilt := MAX_AXIAL_TILT
      * Real.sin (((ordinal0 : ℝ) + EQUINOX_OFFSET) / DAYS_PER_YEAR * TAU) }

end Globe

/-! ### ClockFace rasterizer: src/clock_face.rs -/

namespace ClockFace

/-- Renderer::set_time hour-hand angle (src/clock_face.rs line 193):
seconds-since-midnight / 86400 · TAU. -/
noncomputable def hour_angle_of (secs : ℕ) : ℝ := (secs : ℝ) / 86400 * TAU

/-- Renderer::set_time minute-hand angle (src/clock_face.rs line 194):
seconds-since-midnight / 3600 · TAU. -/
noncomputable def minute_angle_of (secs : ℕ) : ℝ := (secs : ℝ) / 3600 * TAU

/-- f32::to_degrees, applied to the hand angles before building the
rotation transform. -/
noncomputable def to_degrees (x : ℝ) : ℝ := x * (180 / Real.pi)

/-- An RGBA color of tiny_skia. -/
structure Color where
  r : ℚ
  g : ℚ
  b : ℚ
  a : ℚ

/-- Color::TRANSPARENT of tiny_skia. -/
def Color.TRANSPARENT : Color := ⟨0, 0, 0, 0⟩

/-- Modelled from the spec: the tiny_skia drawing primitives used by
Renderer::redraw, which are external library code (the repository only
calls them).  Each primitive is a deterministic pure function of its
arguments.  Pixmap::fill overwrites every pixel of the fixed-size
(1024×1024) buffer with the given color, so its result is independent of
the previous buffer contents ("the pixel buffer is fully overwritten
(cleared to transparent, then re-stroked) every frame").  stroke_path
returns the buffer with the given path stroked onto it;
pre_concat/from_rotate build transforms (from_rotate takes degrees). -/
structure SkiaOps (Pix VPath Paint Stroke Tf : Type) where
  fill : Color → Pix
  stroke_path : Pix → VPath → Paint → Stroke → Tf → Pix
  pre_concat : Tf → Tf → Tf
  from_rotate : ℝ → Tf

/-- The Renderer state (src/clock_face.rs lines 85-97): the pixel
buffer, the shared paint, the two stroke styles, the base transform, the
two precomputed tick paths, the two hand paths, and the two current hand
angles. -/
structure Renderer (Pix VPath Paint Stroke Tf : Type) where
  pixmap : Pix
  paint : Paint
  major_stroke : Stroke
  minor_stroke : Stroke
  transform : Tf
  major_tick_path : VPath
  minor_tick_path : VPath
  hour_hand_path : VPath
  minute_hand_path : VPath
  hour_angle : ℝ
  minute_angle : ℝ

/-- Modelled from the spec: the objects Renderer::new (src/clock_face.rs
lines 100-176) builds once from the configuration — the blank pixmap,
paint, strokes, the base normalized-to-pixel transform and the four
vector paths — are constructed through external tiny_skia path-building
code, so they are abstracted as an opaque bundle of constructed values. -/
structure RendererParts (Pix VPath Paint Stroke Tf : Type) where
  pixmap : Pix
  paint : Paint
  major_stroke : Stroke
  minor_stroke : Stroke
  transform : Tf
  major_tick_path : VPath
  minor_tick_path : VPath
  hour_hand_path : VPath
  minute_hand_path : VPath

/-- Renderer::new (src/clock_face.rs lines 100-190): store the
constructed fixed objects and initialize both hand angles to 0.0
(lines 187-188). -/
def Renderer.new {Pix VPath Paint Stroke Tf : Type}
    (p : RendererParts Pix VPath Paint Stroke Tf) :
    Renderer Pix VPath Paint Stroke Tf :=
  { pixmap := p.pixmap
    paint := p.paint
    major_stroke := p.major_stroke
    minor_stroke := p.minor_stroke
    transform := p.transform
    major_tick_path := p.major_tick_path
    minor_tick_path := p.minor_tick_path
    hour_hand_path := p.hour_hand_path
    minute_hand_path := p.minute_hand_path
    hour_angle := 0
    minute_angle := 0 }

/-- Renderer::set_time (src/clock_face.rs lines 192-195). -/
noncomputable def Renderer.set_time {Pix VPath Paint Stroke Tf : Type}
    (r : Renderer Pix VPath Paint Stroke Tf) (secs : ℕ) :
    Renderer Pix VPath Paint Stroke Tf :=
  { r with
    hour_angle := hour_angle_of secs
    minute_angle := minute_angle_of secs }

/-- The pixel buffer produced by Renderer::redraw (src/clock_face.rs
lines 197-229): clear to transparent, stroke the major ticks, the minor
ticks, then the hour hand and the minute hand, each hand with the base
transform pre-concatenated with a rotation by the negated angle in
degrees.  The previous pixmap contents are never read, because the fill
overwrites the whole buffer. -/
noncomputable def redraw_output {Pix VPath Paint Stroke Tf : Type}
    (ops : SkiaOps Pix VPath Paint Stroke Tf)
    (r : Renderer Pix VPath Paint Stroke Tf) : Pix :=
  let p0 := ops.fill Color.TRANSPARENT
  let p1 := ops.stroke_path p0 r.major_tick_path r.paint r.major_stroke r.transform
  let p2 := ops.stroke_path p1 r.minor_tick_path r.paint r.minor_stroke r.transform
  let p3 := ops.stroke_path p2 r.hour_hand_path r.paint r.major_stroke
    (ops.pre_concat r.transform (ops.from_rotate (-(to_degrees r.hour_angle))))
  let p4 := ops.stroke_path p3 r.minute_hand_path r.paint r.minor_stroke
    (ops.pre_concat r.transform (ops.from_rotate (-(to_degrees r.minute_angle))))
  p4

/-- Renderer::redraw as a state update: the pixmap is replaced by the
freshly rasterized buffer; no other field changes. -/
noncomputable def Renderer.redraw {Pix VPath Paint Stroke Tf : Type}
    (ops : SkiaOps Pix VPath Paint Stroke Tf)
    (r : Renderer Pix VPath Paint Stroke Tf) :
    Renderer Pix VPath Paint Stroke Tf :=
  { r with pixmap := redraw_output ops r }

/-- The operations the frame loop performs on the renderer between two
redraws: ClockFace::set_time calls and ClockFace::draw calls (each draw
re-rasterizes via Renderer::redraw). -/
inductive REvent
  | set_time (secs : ℕ)
  | redraw

/-- Run a sequence of renderer events from a starting state. -/
noncomputable def run {Pix VPath Paint Stroke Tf : Type}
    (ops : SkiaOps Pix VPath Paint Stroke Tf)
    (r : Renderer Pix VPath Paint Stroke Tf) :
    List REvent → Renderer Pix VPath Paint Stroke Tf
  | [] => r
  | REvent.set_time s :: es => run ops (r.set_time s) es
  | REvent.redraw :: es => run ops (r.redraw ops) es

/-- A degenerate instantiation of the drawing primitives over unit
types, used to instantiate the purity theorem at a concrete input. -/
def trivOps : SkiaOps Unit Unit Unit Unit Unit :=
  ⟨fun _ => (), fun _ _ _ _ _ => (), fun _ _ => (), fun _ => ()⟩

/-- A concrete renderer state over unit types with both hand angles 0. -/
def trivRenderer : Renderer Unit Unit Unit Unit Unit :=
  ⟨(), (), (), (), (), (), (), (), (), 0, 0⟩

end ClockFace

/-- All fields of the renderer other than the pixmap and the two hand
angles are fixed: no event sequence changes them. -/
theorem ClockFace.run_fixed_fields {Pix VPath Paint Stroke Tf : Type}
    (ops : ClockFace.SkiaOps Pix VPath Paint Stroke Tf)
    (r : ClockFace.Renderer Pix VPath Paint Stroke Tf)
    (evs : List ClockFace.REvent) :
    (ClockFace.run ops r evs).paint = r.paint
    ∧ (ClockFace.run ops r evs).major_stroke = r.major_stroke
    ∧ (ClockFace.run ops r evs).minor_stroke = r.minor_stroke
    ∧ (ClockFace.run ops r evs).transform = r.transform
    ∧ (ClockFace.run ops r evs).major_tick_path = r.major_tick_path
    ∧ (ClockFace.run ops r evs).minor_tick_path = r.minor_tick_path
    ∧ (ClockFace.run ops r evs).hour_hand_path = r.hour_hand_path
    ∧ (ClockFace.run ops r evs).minute_hand_path = r.minute_hand_path := by
  induction evs generalizing r with
  | nil => exact ⟨rfl, rfl, rfl, rfl, rfl, rfl, rfl, rfl⟩
  | cons e es ih =>
    cases e with
    | set_time s => exact ih (r.set_time s)
    | redraw => exact ih (r.redraw ops)

/-- The rasterized buffer only depends on the fixed drawing objects and
the two hand angles; it never reads the previous pixmap contents. -/
theorem ClockFace.redraw_output_congr {Pix VPath Paint Stroke Tf : Type}
    (ops : ClockFace.SkiaOps Pix VPath Paint Stroke Tf)
    (r1 r2 : ClockFace.Renderer Pix VPath Paint Stroke Tf)
    (hpaint : r1.paint = r2.paint)
    (hmaj : r1.major_stroke = r2.major_stroke)
    (hmin : r1.minor_stroke = r2.minor_stroke)
    (htf : r1.transform = r2.transform)
    (hmajp : r1.major_tick_path = r2.major_tick_path)
    (hminp : r1.minor_tick_path = r2.minor_tick_path)
    (hhourp : r1.hour_hand_path = r2.hour_hand_path)
    (hminutep : r1.minute_hand_path = r2.minute_hand_path)
    (hha : r1.hour_angle = r2.hour_angle)
    (hma : r1.minute_angle = r2.minute_angle) :
    ClockFace.redraw_output ops r1 = ClockFace.redraw_output ops r2 := by
  unfold ClockFace.redraw_output
  rw [hpaint, hmaj, hmin, htf, hmajp, hminp, hhourp, hminutep, hha, hma]

/-- Claim C1 counterexample: when frame acquisition reports Lost twice
before succeeding, a single App::redraw call consumes three acquisition
attempts, i.e. performs two immediate retries, refuting the claim that
the orchestrator retries acquisition only a single immediate time within
the same redraw call. -/
theorem C1_counterexample :
    App.redraw ⟨720, 720, none⟩
        [App.AcqResult.lost, App.AcqResult.lost, App.AcqResult.ok]
      = some (App.RedrawResult.success [App.draw_commands],
          ⟨720, 720, some ⟨720, 720, PresentMode.fifo⟩⟩, 3)
    ∧ ¬ (3 ≤ 2) := by
  constructor
  · decide
  · decide

/-- Claim C1 (amended): on Lost, App::redraw drops the swap-chain
configuration and retries acquisition after reconfiguring, repeating this
for every successive Lost report (the retry loop is unbounded in the
number of Lost results); a single Lost followed by a successful
acquisition incurs exactly one immediate retry and leaves the swap chain
reconfigured at the current window size.  Timeout or Outdated make redraw
return success with no commands encoded or submitted, and any other
acquisition error is returned as an error. -/
theorem C1_redraw_error_handling :
    ∀ (st : AppState) (rs : List App.AcqResult),
      App.redraw st (App.AcqResult.ok :: rs)
        = some (App.RedrawResult.success [App.draw_commands], App.ensure_swap_chain st, 1)
    ∧ App.redraw st (App.AcqResult.timeout :: rs)
        = some (App.RedrawResult.success [], App.ensure_swap_chain st, 1)
    ∧ App.redraw st (App.AcqResult.outdated :: rs)
        = some (App.RedrawResult.success [], App.ensure_swap_chain st, 1)
    ∧ App.redraw st (App.AcqResult.other :: rs)
        = some (App.RedrawResult.failure, App.ensure_swap_chain st, 1)
    ∧ App.redraw st (App.AcqResult.lost :: rs)
        = (App.redraw { st with swap_chain := none } rs).map
            (fun p => (p.1, p.2.1, p.2.2 + 1))
    ∧ App.redraw st [App.AcqResult.lost, App.AcqResult.ok]
        = some (App.RedrawResult.success [App.draw_commands],
            { st with
              swap_chain := some ⟨st.window_width, st.window_height, PresentMode.fifo⟩ },
            2) := by
  intro st rs
  obtain ⟨w, h, sc⟩ := st
  refine ⟨rfl, rfl, rfl, rfl, ?_, ?_⟩
  · cases sc <;> rfl
  · cases sc <;> rfl

/-- Claim C5: for positive window dimensions the recomputed viewport
projection is exactly the diagonal matrix scaling X by min(w,h)/w and Y
by min(w,h)/h with Z and W unscaled; recomputation at identical
dimensions is bit-identical; a square window yields the identity matrix
(X and Y scale exactly 1); and a 1440×720 window yields X scale 1/2 and
Y scale 1. -/
theorem C5_viewport_projection :
    ∀ (w h : ℚ), 0 < w → 0 < h →
      (Viewport.Uniforms.new w h).proj
        = Matrix.diagonal ![min w h / w, min w h / h, 1, 1]
    ∧ Viewport.Uniforms.new w h = Viewport.Uniforms.new w h
    ∧ (w = h → (Viewport.Uniforms.new w h).proj = 1)
    ∧ (Viewport.Uniforms.new 1440 720).proj
        = Matrix.diagonal ![1/2, 1, 1, 1] := by
  intro w h hw hh
  have base : ∀ (a b : ℚ), 0 < a → 0 < b →
      (Viewport.Uniforms.new a b).proj
        = Matrix.diagonal ![min a b / a, min a b / b, 1, 1] := by
    intro a b _ _
    ext i j
    fin_cases i <;> fin_cases j <;>
      simp [Viewport.Uniforms.new, Viewport.from_cols, Viewport.vec4X,
        Viewport.vec4Y, Viewport.vec4Z, Viewport.vec4W, Matrix.diagonal,
        Matrix.vecHead, Matrix.vecTail]
  refine ⟨base w h hw hh, rfl, ?_, ?_⟩
  · intro hwh
    subst hwh
    rw [base w w hw hw]
    have hne : w ≠ 0 := ne_of_gt hw
    ext i j
    fin_cases i <;> fin_cases j <;>
      simp [Matrix.diagonal, Matrix.one_apply, min_self, div_self hne,
        Matrix.vecHead, Matrix.vecTail]
  · rw [base 1440 720 (by norm_num) (by norm_num)]
    have h1 : min (1440 : ℚ) 720 = 720 := by norm_num [min_def]
    rw [h1]
    norm_num

/-- Claim C5 witness: instantiate the projection theorem at the concrete
1440×720 window of Scenario D. -/
theorem C5_witness :
    (Viewport.Uniforms.new 1440 720).proj = Matrix.diagonal ![1/2, 1, 1, 1] :=
  (C5_viewport_projection 1440 720 (by decide) (by decide)).2.2.2

/-- Claim C2: for every UTC datetime (any day index d, any
seconds-since-midnight value s), Globe::set_date sets the rotation
uniform to s / 86400 · 2π + ANGLE_OFFSET, where ANGLE_OFFSET is a fixed
constant; in particular at seconds-since-midnight 0 the rotation is
exactly the fixed phase offset. -/
theorem C2_set_date_rotation :
    ∀ (u : Globe.Uniforms) (d s : ℕ),
      (Globe.set_date u d s).rotation
        = (s : ℝ) / 86400 * (2 * Real.pi) + Globe.ANGLE_OFFSET
    ∧ (Globe.set_date u d 0).rotation = Globe.ANGLE_OFFSET := by
  intro u d s
  constructor
  · simp [Globe.set_date, Globe.SECONDS_PER_DAY, TAU]
  · simp [Globe.set_date, Globe.SECONDS_PER_DAY, TAU]

/-- Claim C4: for every date, Globe::set_date sets the axial_tilt
uniform to MAX_AXIAL_TILT · sin(2π · (day_of_year + EQUINOX_OFFSET) /
365), where MAX_AXIAL_TILT is 23.4 degrees in radians (23.4 · π / 180)
and EQUINOX_OFFSET is the fixed constant -78; the divisor is always 365
(no leap-year handling). -/
theorem C4_set_date_axial_tilt :
    ∀ (u : Globe.Uniforms) (d s : ℕ),
      (Globe.set_date u d s).axial_tilt
        = Globe.MAX_AXIAL_TILT
            * Real.sin (2 * Real.pi * ((d : ℝ) + Globe.EQUINOX_OFFSET) / 365)
    ∧ Globe.EQUINOX_OFFSET = -78
    ∧ Globe.MAX_AXIAL_TILT = 23.4 * (Real.pi / 180) := by
  intro u d s
  refine ⟨?_, rfl, ?_⟩
  · show Globe.MAX_AXIAL_TILT
        * Real.sin (((d : ℝ) + Globe.EQUINOX_OFFSET) / Globe.DAYS_PER_YEAR * TAU)
      = _
    congr 1
    unfold TAU Globe.DAYS_PER_YEAR
    ring_nf
  · unfold Globe.MAX_AXIAL_TILT TAU
    ring

/-- Claim C8: the rotation set by Globe::set_date depends only on the
seconds-since-midnight (so any two UTC instants 24 hours apart, having
equal seconds-since-midnight, get equal rotations); the axial tilt
depends only on the day-of-year index and is periodic in it with period
365; its magnitude is at most 23.4 degrees in radians; and it attains
+MAX_AXIAL_TILT exactly where the sine factor is 1, and -MAX_AXIAL_TILT
exactly where the sine factor is -1. -/
theorem C8_globe_periodicity :
    ∀ (u u' : Globe.Uniforms) (d d' s : ℕ),
      (Globe.set_date u d s).rotation = (Globe.set_date u' d' s).rotation
    ∧ (Globe.set_date u (d + 365) s).axial_tilt = (Globe.set_date u d s).axial_tilt
    ∧ |(Globe.set_date u d s).axial_tilt| ≤ 23.4 * (Real.pi / 180)
    ∧ ((Globe.set_date u d s).axial_tilt = Globe.MAX_AXIAL_TILT
        ↔ Real.sin (((d : ℝ) + Globe.EQUINOX_OFFSET) / Globe.DAYS_PER_YEAR * TAU) = 1)
    ∧ ((Globe.set_date u d s).axial_tilt = -Globe.MAX_AXIAL_TILT
        ↔ Real.sin (((d : ℝ) + Globe.EQUINOX_OFFSET) / Globe.DAYS_PER_YEAR * TAU) = -1) := by
  intro u u' d d' s
  have hmax_pos : 0 < Globe.MAX_AXIAL_TILT := by
    unfold Globe.MAX_AXIAL_TILT TAU
    positivity
  have hmax_ne : Globe.MAX_AXIAL_TILT ≠ 0 := ne_of_gt hmax_pos
  refine ⟨rfl, ?_, ?_, ?_, ?_⟩
  · show Globe.MAX_AXIAL_TILT * _ = Globe.MAX_AXIAL_TILT * _
    congr 1
    have harg : (((d + 365 : ℕ) : ℝ) + Globe.EQUINOX_OFFSET)
          / Globe.DAYS_PER_YEAR * TAU
        = ((d : ℝ) + Globe.EQUINOX_OFFSET) / Globe.DAYS_PER_YEAR * TAU
            + 2 * Real.pi := by
      unfold Globe.DAYS_PER_YEAR Globe.EQUINOX_OFFSET TAU
      push_cast
      ring
    rw [harg, Real.sin_add_two_pi]
  · show |Globe.MAX_AXIAL_TILT * _| ≤ _
    rw [abs_mul, abs_of_pos hmax_pos]
    calc Globe.MAX_AXIAL_TILT * |Real.sin _|
        ≤ Globe.MAX_AXIAL_TILT * 1 :=
          mul_le_mul_of_nonneg_left (Real.abs_sin_le_one _) (le_of_lt hmax_pos)
      _ = 23.4 * (Real.pi / 180) := by
          rw [mul_one]
          unfold Globe.MAX_AXIAL_TILT TAU
          ring
  · constructor
    · intro hEq
      refine mul_left_cancel₀ hmax_ne ?_
      rw [mul_one]
      exact hEq
    · intro hEq
      show Globe.MAX_AXIAL_TILT * _ = _
      rw [hEq, mul_one]
  · constructor
    · intro hEq
      refine mul_left_cancel₀ hmax_ne ?_
      rw [mul_neg_one]
      exact hEq
    · intro hEq
      show Globe.MAX_AXIAL_TILT * _ = _
      rw [hEq, mul_neg_one]

/-- Claim C9: Globe::set_date mutates only the rotation and axial_tilt
fields of the uniform block; local_transform, min_latitude,
max_latitude and deflection_point are unchanged, and the constructed
defaults for min_latitude/max_latitude are exactly -π/2 and π/2
(±90 degrees). -/
theorem C9_set_date_frame :
    ∀ (u : Globe.Uniforms) (d s : ℕ),
      (Globe.set_date u d s).local_transform = u.local_transform
    ∧ (Globe.set_date u d s).min_latitude = u.min_latitude
    ∧ (Globe.set_date u d s).max_latitude = u.max_latitude
    ∧ (Globe.set_date u d s).deflection_point = u.deflection_point
    ∧ Globe.Uniforms.default.min_latitude = -(Real.pi / 2)
    ∧ Globe.Uniforms.default.max_latitude = Real.pi / 2 := by
  intro u d s
  refine ⟨rfl, rfl, rfl, rfl, ?_, ?_⟩
  · show -TAU / 4 = -(Real.pi / 2)
    unfold TAU
    ring
  · show TAU / 4 = Real.pi / 2
    unfold TAU
    ring

/-- Claim C3: for every local time with s seconds since midnight,
Renderer::set_time stores hour_angle = 2π·s/86400 and minute_angle =
2π·s/3600; in particular at 12:00:00 (s = 43200) the hour-hand angle is
exactly π. -/
theorem C3_set_time_angles :
    ∀ {Pix VPath Paint Stroke Tf : Type}
      (r : ClockFace.Renderer Pix VPath Paint Stroke Tf) (s : ℕ),
      (r.set_time s).hour_angle = 2 * Real.pi * (s : ℝ) / 86400
    ∧ (r.set_time s).minute_angle = 2 * Real.pi * (s : ℝ) / 3600
    ∧ (r.set_time 43200).hour_angle = Real.pi := by
  intro Pix VPath Paint Stroke Tf r s
  refine ⟨?_, ?_, ?_⟩
  · show (s : ℝ) / 86400 * TAU = _
    unfold TAU
    ring
  · show (s : ℝ) / 3600 * TAU = _
    unfold TAU
    ring
  · show ((43200 : ℕ) : ℝ) / 86400 * TAU = _
    unfold TAU
    push_cast
    field_simp
    ring

/-- Claim C7: both hand-angle functions are strictly increasing in
seconds-since-midnight over [0, 86400) (the f32 arithmetic of the source
is embedded as exact real arithmetic), the hour angle grows by exactly
2π per 86400 seconds, and the minute angle by exactly 2π per 3600
seconds. -/
theorem C7_angle_monotonicity :
    ∀ (s1 s2 : ℕ), s1 < s2 → s2 < 86400 →
      ClockFace.hour_angle_of s1 < ClockFace.hour_angle_of s2
    ∧ ClockFace.minute_angle_of s1 < ClockFace.minute_angle_of s2
    ∧ (∀ s : ℕ,
        ClockFace.hour_angle_of (s + 86400) = ClockFace.hour_angle_of s + 2 * Real.pi
        ∧ ClockFace.minute_angle_of (s + 3600)
            = ClockFace.minute_angle_of s + 2 * Real.pi) := by
  intro s1 s2 h12 _
  have hcast : (s1 : ℝ) < (s2 : ℝ) := by exact_mod_cast h12
  have htau : (0 : ℝ) < TAU := by
    unfold TAU
    exact Real.two_pi_pos
  refine ⟨?_, ?_, ?_⟩
  · unfold ClockFace.hour_angle_of
    exact mul_lt_mul_of_pos_right
      ((div_lt_div_iff_of_pos_right (by norm_num)).mpr hcast) htau
  · unfold ClockFace.minute_angle_of
    exact mul_lt_mul_of_pos_right
      ((div_lt_div_iff_of_pos_right (by norm_num)).mpr hcast) htau
  · intro s
    constructor
    · unfold ClockFace.hour_angle_of TAU
      push_cast
      ring
    · unfold ClockFace.minute_angle_of TAU
      push_cast
      ring

/-- Claim C7 witness: the monotonicity theorem applied at the concrete
pair of instants 1 s and 2 s after midnight. -/
theorem C7_witness :
    ClockFace.hour_angle_of 1 < ClockFace.hour_angle_of 2 :=
  (C7_angle_monotonicity 1 2 (by decide) (by decide)).1

/-- Claim C6: the ClockFace rasterization is a pure function of the pair
(hour_angle, minute_angle): starting from any renderer and running any
two event sequences (set_time calls and redraws), if the two resulting
states store equal hour and minute angles then the rasterized pixel
buffers are identical — each redraw first clears the whole buffer and
then re-strokes the fixed tick paths and the two hands, so no drawing
state persists between frames. -/
theorem C6_raster_pure :
    ∀ {Pix VPath Paint Stroke Tf : Type}
      (ops : ClockFace.SkiaOps Pix VPath Paint Stroke Tf)
      (r0 : ClockFace.Renderer Pix VPath Paint Stroke Tf)
      (evs1 evs2 : List ClockFace.REvent),
      (ClockFace.run ops r0 evs1).hour_angle = (ClockFace.run ops r0 evs2).hour_angle →
      (ClockFace.run ops r0 evs1).minute_angle = (ClockFace.run ops r0 evs2).minute_angle →
      ClockFace.redraw_output ops (ClockFace.run ops r0 evs1)
        = ClockFace.redraw_output ops (ClockFace.run ops r0 evs2) := by
  intro Pix VPath Paint Stroke Tf ops r0 evs1 evs2 hha hma
  obtain ⟨p1, j1, n1, t1, a1, b1, c1, d1⟩ := ClockFace.run_fixed_fields ops r0 evs1
  obtain ⟨p2, j2, n2, t2, a2, b2, c2, d2⟩ := ClockFace.run_fixed_fields ops r0 evs2
  exact ClockFace.redraw_output_congr ops _ _
    (p1.trans p2.symm) (j1.trans j2.symm) (n1.trans n2.symm) (t1.trans t2.symm)
    (a1.trans a2.symm) (b1.trans b2.symm) (c1.trans c2.symm) (d1.trans d2.symm)
    hha hma

/-- Claim C6 witness: the purity theorem applied to a concrete renderer
over unit pixel types and two (equal) concrete event sequences. -/
theorem C6_witness :
    ClockFace.redraw_output ClockFace.trivOps
        (ClockFace.run ClockFace.trivOps ClockFace.trivRenderer [])
      = ClockFace.redraw_output ClockFace.trivOps
          (ClockFace.run ClockFace.trivOps ClockFace.trivRenderer []) :=
  C6_raster_pure ClockFace.trivOps ClockFace.trivRenderer [] [] rfl rfl

/-- Claim C10: after Renderer::new and before any set_time call, both
hand angles are exactly 0, and a redraw issued in that state rasterizes
the same pixel buffer as a redraw at the midnight time (set_time with 0
seconds since midnight), i.e. both hands at the base pointing-up
orientation. -/
theorem C10_initial_angles :
    ∀ {Pix VPath Paint Stroke Tf : Type}
      (p : ClockFace.RendererParts Pix VPath Paint Stroke Tf)
      (ops : ClockFace.SkiaOps Pix VPath Paint Stroke Tf),
      (ClockFace.Renderer.new p).hour_angle = 0
    ∧ (ClockFace.Renderer.new p).minute_angle = 0
    ∧ ClockFace.redraw_output ops (ClockFace.Renderer.new p)
        = ClockFace.redraw_output ops ((ClockFace.Renderer.new p).set_time 0) := by
  intro Pix VPath Paint Stroke Tf p ops
  refine ⟨rfl, rfl, ?_⟩
  refine ClockFace.redraw_output_congr ops _ _ rfl rfl rfl rfl rfl rfl rfl rfl ?_ ?_
  · show (0 : ℝ) = ClockFace.hour_angle_of 0
    unfold ClockFace.hour_angle_of
    simp
  · show (0 : ℝ) = ClockFace.minute_angle_of 0
    unfold ClockFace.minute_angle_of
    simp

end GlobalClock
